import Mathlib

/-!
Verification of the `dyson_local` Home Assistant integration
(`custom_components/dyson_local/__init__.py`).

The integration's lifecycle code is shallowly embedded below:

* `HassData` models the process-wide mapping `hass.data[DOMAIN]`:
  the `DATA_DEVICES` dictionary (config-entry id → connected device handle)
  and the optional `DATA_DISCOVERY` singleton.
* `setup_entry`, `async_setup_entry`, `async_unload_entry` and
  `_async_get_platform` are translated from the source.  Interactions with
  the host platform and the external library (`connect`, forwarding,
  logging, disconnect, …) are recorded as an explicit `Event` trace, and the
  outcome of the blocking `device.connect(host)` network call is an input
  (`connect_ok`).
* `DysonEntity` models the entity base class and its `_on_message` filter.
-/

namespace DysonLocal

/-- A `libdyson` message type (`MessageType` enumeration), abstracted to `Nat`. -/
abbrev MessageType := Nat

/-- The live device object returned by the external `libdyson` factory
`get_device`.  `is360Eye` records whether the object is an instance of the
`Dyson360Eye` class (the robotic-vacuum device class). -/
structure DeviceHandle where
  serial : String
  credential : String
  device_type : String
  is360Eye : Bool
  deriving DecidableEq, Repr

/-- Modelled from the spec: the external device library exposes "a
distinguished device-type value identifying robotic vacuums"; `libdyson`'s
`get_device` is not part of this repository.  This predicate tells whether a
device-type discriminator is that distinguished robotic-vacuum type. -/
def is360EyeType (device_type : String) : Bool :=
  device_type = "360eye"

/-- Modelled from the spec: the external factory
`get_device(serial, credential, device_type)` of `libdyson` (not part of this
repository), which returns a Device Handle whose class is `Dyson360Eye`
exactly when the device type is the distinguished robotic-vacuum type. -/
def get_device (serial credential device_type : String) : DeviceHandle :=
  { serial := serial
    credential := credential
    device_type := device_type
    is360Eye := is360EyeType device_type }

/-- A config entry (`homeassistant.config_entries.ConfigEntry`): the fields of
`entry.data` read by `async_setup_entry` plus the platform-assigned
`entry_id`. -/
structure ConfigEntry where
  entry_id : String
  serial : String
  credential : String
  device_type : String
  host : Option String
  deriving DecidableEq, Repr

/-- The lazily created `DysonDiscovery` service.  `registered` records the
pending `(device, callback)` pairs passed to `register_device`; the callback
is always the `setup_entry` closure of the registering config entry, so a
pair is recorded as (entry id, device). -/
structure DysonDiscovery where
  registered : List (String × DeviceHandle)
  deriving DecidableEq, Repr

/-- Python dictionary lookup `d[k]` on an association list, `none` when the
key is absent (a `KeyError` in Python). -/
def dictGet (m : List (String × DeviceHandle)) (k : String) : Option DeviceHandle :=
  match m with
  | [] => none
  | (k', v) :: rest => if k' = k then some v else dictGet rest k

/-- Python dictionary assignment `d[k] = v`: replaces the value in place when
the key exists, otherwise appends the new pair. -/
def dictSet (m : List (String × DeviceHandle)) (k : String) (v : DeviceHandle) :
    List (String × DeviceHandle) :=
  match m with
  | [] => [(k, v)]
  | (k', v') :: rest => if k' = k then (k, v) :: rest else (k', v') :: dictSet rest k v

/-- Python dictionary `d.pop(k)` restricted to the removal effect (the source
only pops a key it has just looked up successfully). -/
def dictPop (m : List (String × DeviceHandle)) (k : String) :
    List (String × DeviceHandle) :=
  match m with
  | [] => []
  | (k', v') :: rest => if k' = k then rest else (k', v') :: dictPop rest k

/-- The process-wide state `hass.data[DOMAIN]`: the `DATA_DEVICES` mapping
from config-entry id to connected Device Handle, and the optional
`DATA_DISCOVERY` singleton. -/
structure HassData where
  devices : List (String × DeviceHandle)
  discovery : Option DysonDiscovery
  deriving DecidableEq, Repr

/-- Translation of `async_setup`: the initial process-wide state
(`{DATA_DEVICES: {}, DATA_DISCOVERY: None}`). -/
def async_setup : HassData :=
  { devices := [], discovery := none }

/-- Observable interactions of the lifecycle code with the host platform and
the external library, recorded in program order. -/
inductive Event where
  /-- The blocking `device.connect(host)` call was made. -/
  | connectAttempt (serial host : String)
  /-- Records `hass.data[DOMAIN][DATA_DEVICES][entry.entry_id] = device`. -/
  | storeDevice (entry_id : String) (device : DeviceHandle)
  /-- Records `hass.config_entries.async_forward_entry_setup(entry, component)`. -/
  | forward (entry_id component : String)
  /-- Records the `_LOGGER.error("Failed to connect to device %s at %s", ...)` call. -/
  | logError (serial host : String)
  /-- Records `discovery.register_device(device, setup_entry)`. -/
  | registerDiscovery (entry_id serial : String)
  /-- Records `discovery.start_discovery(await async_get_instance(hass))`. -/
  | startDiscovery
  /-- Records `hass.bus.async_listen_once(EVENT_HOMEASSISTANT_STOP, stop_discovery)`. -/
  | listenStopRegistered
  /-- Records `hass.config_entries.async_forward_entry_unload(entry, component)`. -/
  | unloadForward (entry_id component : String)
  /-- Records `hass.data[DOMAIN][DATA_DEVICES].pop(entry.entry_id)`. -/
  | popDevice (entry_id : String)
  /-- Records `device.disconnect()`. -/
  | disconnectCall (serial : String)
  deriving DecidableEq, Repr

/-- Exceptions the embedded code can let propagate. -/
inductive PyErr where
  /-- Models `homeassistant.exceptions.ConfigEntryNotReady`. -/
  | configEntryNotReady
  /-- Python `KeyError` from an unguarded dictionary lookup. -/
  | keyError
  deriving DecidableEq, Repr

/-- Result of running one of the embedded Python functions: the exception
that propagated (if any), the Python return value (when one is returned and
meaningful: `None` is `none`), the process-wide state afterwards, and the
trace of recorded events. -/
structure PyResult where
  err : Option PyErr
  ret : Option Bool
  hass : HassData
  events : List Event
  deriving DecidableEq, Repr

/-- Translation of `_async_get_platform(device)`: the Platform Selector. -/
def _async_get_platform (device : DeviceHandle) : List String :=
  if device.is360Eye then ["binary_sensor", "sensor", "vacuum"]
  else ["fan", "sensor"]

/-- The inner `setup_entry(host, is_discovery)` closure of
`async_setup_entry`, closed over `hass`, `entry` and `device`.  `connect_ok`
is the outcome of the blocking `device.connect(host)` network call.  On
success the device is stored in the process-wide mapping and then
`_async_forward_entry_setup` is marshalled onto the event loop, issuing one
forward call per Platform Selector component.  On a `DysonException`:
the discovery path logs and returns; the direct path raises
`ConfigEntryNotReady`. -/
def setup_entry (hass : HassData) (entry_id : String) (device : DeviceHandle)
    (connect_ok : Bool) (host : String) (is_discovery : Bool) : PyResult :=
  if connect_ok then
    { err := none
      ret := none
      hass := { hass with devices := dictSet hass.devices entry_id device }
      events := Event.connectAttempt device.serial host
        :: Event.storeDevice entry_id device
        :: (_async_get_platform device).map (fun c => Event.forward entry_id c) }
  else if is_discovery then
    { err := none
      ret := none
      hass := hass
      events := [Event.connectAttempt device.serial host,
                 Event.logError device.serial host] }
  else
    { err := some PyErr.configEntryNotReady
      ret := none
      hass := hass
      events := [Event.connectAttempt device.serial host] }

/-- Translation of `async_setup_entry(hass, entry)`.  Builds the Device Handle via
`get_device`.  With a configured host it runs `setup_entry(host,
is_discovery=False)` on an executor job (a raised `ConfigEntryNotReady`
propagates); otherwise it lazily creates the `DysonDiscovery` singleton
(starting discovery and registering the stop listener exactly when it is
created) and registers `(device, setup_entry)` with it.  Returns `True` when
no exception propagates. -/
def async_setup_entry (hass : HassData) (entry : ConfigEntry)
    (connect_ok : Bool) : PyResult :=
  let device := get_device entry.serial entry.credential entry.device_type
  match entry.host with
  | some host =>
      let r := setup_entry hass entry.entry_id device connect_ok host false
      if r.err = none then { r with ret := some true } else r
  | none =>
      match hass.discovery with
      | some d =>
          { err := none
            ret := some true
            hass := { hass with
              discovery := some { registered := d.registered ++ [(entry.entry_id, device)] } }
            events := [Event.registerDiscovery entry.entry_id device.serial] }
      | none =>
          { err := none
            ret := some true
            hass := { hass with
              discovery := some { registered := [(entry.entry_id, device)] } }
            events := [Event.startDiscovery,
                       Event.listenStopRegistered,
                       Event.registerDiscovery entry.entry_id device.serial] }

/-- Translation of `async_unload_entry(hass, entry)`.  The unguarded lookup
`hass.data[DOMAIN][DATA_DEVICES][entry.entry_id]` raises `KeyError` when the
entry id is absent.  Otherwise every Platform Selector component is unloaded
(concurrently via `asyncio.gather`; `unload_ok` gives each call's result);
only when all succeed is the device popped from the mapping and
`device.disconnect()` invoked, and the conjunction is returned. -/
def async_unload_entry (hass : HassData) (entry : ConfigEntry)
    (unload_ok : String → Bool) : PyResult :=
  match dictGet hass.devices entry.entry_id with
  | none =>
      { err := some PyErr.keyError, ret := none, hass := hass, events := [] }
  | some device =>
      let components := _async_get_platform device
      let unloadEvents := components.map (fun c => Event.unloadForward entry.entry_id c)
      let ok := components.all unload_ok
      if ok then
        { err := none
          ret := some true
          hass := { hass with devices := dictPop hass.devices entry.entry_id }
          events := unloadEvents
            ++ [Event.popDevice entry.entry_id, Event.disconnectCall device.serial] }
      else
        { err := none
          ret := some false
          hass := hass
          events := unloadEvents }

/-- Runs a sequence of `async_setup_entry` calls (each paired with its
connect outcome), threading the process-wide state and concatenating the
event traces. -/
def runSetups : HassData → List (ConfigEntry × Bool) → HassData × List Event
  | hass, [] => (hass, [])
  | hass, c :: rest =>
      let r := async_setup_entry hass c.1 c.2
      ((runSetups r.hass rest).1, r.events ++ (runSetups r.hass rest).2)

/-- The `DysonEntity` base class.  `_MESSAGE_TYPE` is the class attribute
(the message-type filter, `None` in the base class and overridden by
concrete entity categories). -/
structure DysonEntity where
  _device : DeviceHandle
  _name : String
  _MESSAGE_TYPE : Option MessageType
  deriving DecidableEq, Repr

/-- Translation of `DysonEntity._on_message(message_type)`: returns whether
`self.schedule_update_ha_state()` was called, i.e. whether
`self._MESSAGE_TYPE is None or message_type == self._MESSAGE_TYPE`. -/
def DysonEntity._on_message (self : DysonEntity) (message_type : MessageType) : Bool :=
  if self._MESSAGE_TYPE = none ∨ self._MESSAGE_TYPE = some message_type then
    true
  else
    false

/-- Translation of the `name` property. -/
def DysonEntity.name (self : DysonEntity) : String :=
  self._name

/-- Translation of the `unique_id` property: the bare device serial. -/
def DysonEntity.unique_id (self : DysonEntity) : String :=
  self._device.serial

/-! Sample concrete data, used to instantiate theorems with hypotheses. -/

/-- A sample non-vacuum device (a fan device type). -/
def sampleFan : DeviceHandle := get_device "JH1-EU-AAA0000A" "cred0" "438"

/-- A sample robotic-vacuum device. -/
def sampleVacuum : DeviceHandle := get_device "JH1-EU-BBB1111B" "cred1" "360eye"

/-- A sample config entry with a configured host, matching `sampleFan`. -/
def sampleEntry : ConfigEntry :=
  { entry_id := "entry1", serial := "JH1-EU-AAA0000A", credential := "cred0",
    device_type := "438", host := some "192.168.1.5" }

/-- A sample config entry with no configured host. -/
def sampleEntryNoHost : ConfigEntry :=
  { entry_id := "entry2", serial := "JH1-EU-BBB1111B", credential := "cred1",
    device_type := "360eye", host := none }

/-- A sample process-wide state holding `sampleFan` under `"entry1"`. -/
def sampleHass : HassData :=
  { devices := [("entry1", sampleFan)], discovery := none }

/-! Helper lemmas. -/

/-- Looking up the key just assigned returns the assigned value. -/
theorem dictGet_dictSet (m : List (String × DeviceHandle)) (k : String) (v : DeviceHandle) :
    dictGet (dictSet m k v) k = some v := by
  induction m with
  | nil => simp [dictGet, dictSet]
  | cons p rest ih =>
      obtain ⟨k', v'⟩ := p
      by_cases h : k' = k
      · simp [dictSet, h, dictGet]
      · simpa [dictSet, h, dictGet] using ih

/-! Claim theorems. -/

/-- C4: the Platform Selector `_async_get_platform` is a pure, deterministic,
total function of the device type: for every robotic-vacuum (`Dyson360Eye`)
device it returns exactly the ordered list
`[binary_sensor, sensor, vacuum]`, and for every other device exactly the
ordered list `[fan, sensor]`; two devices built from the same device type
always get the same platform list. -/
theorem claim_C4_platform_selector (device : DeviceHandle)
    (serial1 credential1 serial2 credential2 device_type : String) :
    _async_get_platform device =
      (if device.is360Eye then ["binary_sensor", "sensor", "vacuum"]
       else ["fan", "sensor"]) ∧
    _async_get_platform (get_device serial1 credential1 device_type) =
      _async_get_platform (get_device serial2 credential2 device_type) := by
  exact ⟨rfl, rfl⟩

/-- C7: `DysonEntity._on_message` requests a state refresh for every message
type when the bridge has no message-type filter, and with a filter it
refreshes exactly when the incoming message type equals the filter. -/
theorem claim_C7_on_message_filter (e : DysonEntity) (mt ft : MessageType) :
    (e._MESSAGE_TYPE = none → e._on_message mt = true) ∧
    (e._MESSAGE_TYPE = some ft → (e._on_message mt = true ↔ mt = ft)) := by
  constructor
  · intro h
    simp [DysonEntity._on_message, h]
  · intro h
    simp [DysonEntity._on_message, h, eq_comm]

/-- C7 witness: a filterless bridge refreshes on message type `3`; a bridge
filtered on type `5` refreshes on `5` and not on `4`. -/
theorem claim_C7_on_message_filter_witness :
    (DysonEntity.mk sampleFan "Fan" none)._on_message 3 = true ∧
    ((DysonEntity.mk sampleFan "Fan" (some 5))._on_message 5 = true ↔ (5 : MessageType) = 5) ∧
    ((DysonEntity.mk sampleFan "Fan" (some 5))._on_message 4 = true ↔ (4 : MessageType) = 5) :=
  ⟨(claim_C7_on_message_filter (DysonEntity.mk sampleFan "Fan" none) 3 0).1 rfl,
   (claim_C7_on_message_filter (DysonEntity.mk sampleFan "Fan" (some 5)) 5 5).2 rfl,
   (claim_C7_on_message_filter (DysonEntity.mk sampleFan "Fan" (some 5)) 4 5).2 rfl⟩

/-- C10: `DysonEntity.unique_id` is the bare device serial with no
entity-category discriminator, so any two entity instances over the same
Device Handle share one unique identifier, whatever their names or
message-type filters. -/
theorem claim_C10_unique_id_bare_serial (e1 e2 : DysonEntity)
    (h : e1._device = e2._device) :
    e1.unique_id = e1._device.serial ∧ e1.unique_id = e2.unique_id := by
  refine ⟨rfl, ?_⟩
  simp [DysonEntity.unique_id, h]

/-- C10 witness: a fan-like entity and a sensor-like entity over the same
device share the unique id, which is the bare serial. -/
theorem claim_C10_unique_id_bare_serial_witness :
    (DysonEntity.mk sampleFan "Living room fan" none).unique_id =
      (DysonEntity.mk sampleFan "Living room fan" none)._device.serial ∧
    (DysonEntity.mk sampleFan "Living room fan" none).unique_id =
      (DysonEntity.mk sampleFan "Living room temperature" (some 2)).unique_id :=
  claim_C10_unique_id_bare_serial
    (DysonEntity.mk sampleFan "Living room fan" none)
    (DysonEntity.mk sampleFan "Living room temperature" (some 2)) rfl

/-- C9: calling `async_unload_entry` for an entry id absent from the
process-wide device mapping raises `KeyError` from the unguarded lookup
rather than returning failure: no `False` is returned, the state is
untouched and nothing is unloaded or disconnected. -/
theorem claim_C9_unload_absent_raises (hass : HassData) (entry : ConfigEntry)
    (unload_ok : String → Bool)
    (h : dictGet hass.devices entry.entry_id = none) :
    async_unload_entry hass entry unload_ok =
      { err := some PyErr.keyError, ret := none, hass := hass, events := [] } := by
  unfold async_unload_entry
  rw [h]

/-- C9 witness: unloading an entry before any device was stored raises
`KeyError`. -/
theorem claim_C9_unload_absent_raises_witness :
    dictGet async_setup.devices sampleEntry.entry_id = none ∧
    async_unload_entry async_setup sampleEntry (fun _ => true) =
      { err := some PyErr.keyError, ret := none, hass := async_setup, events := [] } :=
  ⟨rfl, claim_C9_unload_absent_raises async_setup sampleEntry (fun _ => true) rfl⟩

/-- C5: a discovery-driven connect attempt whose `connect` raises a
`DysonException` is logged and swallowed: the callback returns normally
(no exception, `None` returned), the process-wide state is unchanged, and
the only recorded interactions are the connect attempt and the error log. -/
theorem claim_C5_discovery_failure_swallowed (hass : HassData)
    (entry_id host : String) (device : DeviceHandle) :
    setup_entry hass entry_id device false host true =
      { err := none, ret := none, hass := hass,
        events := [Event.connectAttempt device.serial host,
                   Event.logError device.serial host] } := by
  rfl

/-- C1: with a configured host whose `connect` raises a `DysonException`,
setup raises `ConfigEntryNotReady`, the process-wide state is unchanged,
and no device is stored and no platform forwarding is issued. -/
theorem claim_C1_direct_failure_not_ready (hass : HassData) (entry : ConfigEntry)
    (host : String) (h : entry.host = some host) :
    (async_setup_entry hass entry false).err = some PyErr.configEntryNotReady ∧
    (async_setup_entry hass entry false).hass = hass ∧
    (∀ eid device, Event.storeDevice eid device ∉ (async_setup_entry hass entry false).events) ∧
    (∀ eid c, Event.forward eid c ∉ (async_setup_entry hass entry false).events) := by
  simp [async_setup_entry, h, setup_entry]

/-- C1 witness: setting up `sampleEntry` (configured host) with a failing
connect raises not-ready and leaves the fresh state unchanged. -/
theorem claim_C1_direct_failure_not_ready_witness :
    sampleEntry.host = some "192.168.1.5" ∧
    ((async_setup_entry async_setup sampleEntry false).err = some PyErr.configEntryNotReady ∧
     (async_setup_entry async_setup sampleEntry false).hass = async_setup ∧
     (∀ eid device, Event.storeDevice eid device ∉ (async_setup_entry async_setup sampleEntry false).events) ∧
     (∀ eid c, Event.forward eid c ∉ (async_setup_entry async_setup sampleEntry false).events)) :=
  ⟨rfl, claim_C1_direct_failure_not_ready async_setup sampleEntry "192.168.1.5" rfl⟩

/-- C3: on every successful connect (direct or discovery-driven) the Device
Handle is stored in the process-wide mapping under the entry id strictly
before any forward-to-platform call appears in the trace, a forward call is
issued for every Platform Selector component, and no exception is raised. -/
theorem claim_C3_store_before_forward (hass : HassData) (entry_id host : String)
    (device : DeviceHandle) (is_discovery : Bool) :
    (setup_entry hass entry_id device true host is_discovery).err = none ∧
    dictGet (setup_entry hass entry_id device true host is_discovery).hass.devices
        entry_id = some device ∧
    (setup_entry hass entry_id device true host is_discovery).events =
      Event.connectAttempt device.serial host
        :: Event.storeDevice entry_id device
        :: (_async_get_platform device).map (fun c => Event.forward entry_id c) ∧
    (∀ c ∈ _async_get_platform device,
        Event.forward entry_id c ∈
          (setup_entry hass entry_id device true host is_discovery).events) ∧
    (∀ k c,
        (setup_entry hass entry_id device true host is_discovery).events.get? k =
            some (Event.forward entry_id c) →
        ∃ j, j < k ∧
          (setup_entry hass entry_id device true host is_discovery).events.get? j =
            some (Event.storeDevice entry_id device)) := by
  refine ⟨rfl, ?_, rfl, ?_, ?_⟩
  · simpa [setup_entry] using dictGet_dictSet hass.devices entry_id device
  · intro c hc
    exact List.mem_cons_of_mem _ (List.mem_cons_of_mem _ (List.mem_map_of_mem _ hc))
  · intro k c hk
    match k with
    | 0 => simp [setup_entry] at hk
    | 1 => simp [setup_entry] at hk
    | (n + 2) => exact ⟨1, by omega, rfl⟩

/-- C3 witness: a successful direct-host connect of `sampleFan` stores the
device under the entry id and forwards to the `fan` component. -/
theorem claim_C3_store_before_forward_witness :
    (setup_entry async_setup "entry1" sampleFan true "192.168.1.5" false).err = none ∧
    dictGet (setup_entry async_setup "entry1" sampleFan true "192.168.1.5" false).hass.devices
        "entry1" = some sampleFan ∧
    Event.forward "entry1" "fan" ∈
      (setup_entry async_setup "entry1" sampleFan true "192.168.1.5" false).events :=
  ⟨(claim_C3_store_before_forward async_setup "entry1" "192.168.1.5" sampleFan false).1,
   (claim_C3_store_before_forward async_setup "entry1" "192.168.1.5" sampleFan false).2.1,
   (claim_C3_store_before_forward async_setup "entry1" "192.168.1.5" sampleFan
      false).2.2.2.1 "fan" (by decide)⟩

/-- C2: unload of a stored entry is atomic: it returns `True` exactly when
every Platform Selector component unloads successfully; on success the
device is removed from the mapping and then disconnected; on any failure it
returns `False`, leaves the state unchanged, and never disconnects. -/
theorem claim_C2_unload_atomic (hass : HassData) (entry : ConfigEntry)
    (unload_ok : String → Bool) (device : DeviceHandle)
    (h : dictGet hass.devices entry.entry_id = some device) :
    (async_unload_entry hass entry unload_ok).err = none ∧
    ((async_unload_entry hass entry unload_ok).ret = some true ↔
        (_async_get_platform device).all unload_ok = true) ∧
    ((_async_get_platform device).all unload_ok = true →
        async_unload_entry hass entry unload_ok =
          { err := none, ret := some true,
            hass := { hass with devices := dictPop hass.devices entry.entry_id },
            events := (_async_get_platform device).map
                (fun c => Event.unloadForward entry.entry_id c)
              ++ [Event.popDevice entry.entry_id,
                  Event.disconnectCall device.serial] }) ∧
    ((_async_get_platform device).all unload_ok = false →
        async_unload_entry hass entry unload_ok =
          { err := none, ret := some false, hass := hass,
            events := (_async_get_platform device).map
                (fun c => Event.unloadForward entry.entry_id c) } ∧
        ∀ s, Event.disconnectCall s ∉ (async_unload_entry hass entry unload_ok).events) := by
  unfold async_unload_entry
  rw [h]
  cases hall : (_async_get_platform device).all unload_ok with
  | true => simp [hall]
  | false => simp [hall]

/-- C2 witness: unloading `sampleEntry` from `sampleHass` with every
component unload succeeding returns `True`. -/
theorem claim_C2_unload_atomic_witness :
    dictGet sampleHass.devices sampleEntry.entry_id = some sampleFan ∧
    (async_unload_entry sampleHass sampleEntry (fun _ => true)).err = none ∧
    ((async_unload_entry sampleHass sampleEntry (fun _ => true)).ret = some true ↔
        (_async_get_platform sampleFan).all (fun _ => true) = true) :=
  ⟨rfl,
   (claim_C2_unload_atomic sampleHass sampleEntry (fun _ => true) sampleFan rfl).1,
   (claim_C2_unload_atomic sampleHass sampleEntry (fun _ => true) sampleFan rfl).2.1⟩

/-- C6: setup of an entry with no host never calls `connect` and stores no
device; it registers the Device Handle with the Discovery Service and
returns `True`; and the registered callback invoked later with a reachable
host produces exactly the same result as the direct-host success path. -/
theorem claim_C6_hostless_registers_discovery (hass : HassData)
    (entry : ConfigEntry) (connect_ok : Bool) (host : String)
    (h : entry.host = none) :
    (async_setup_entry hass entry connect_ok).err = none ∧
    (∀ s hst, Event.connectAttempt s hst ∉
        (async_setup_entry hass entry connect_ok).events) ∧
    (∀ eid device, Event.storeDevice eid device ∉
        (async_setup_entry hass entry connect_ok).events) ∧
    Event.registerDiscovery entry.entry_id
        (get_device entry.serial entry.credential entry.device_type).serial
      ∈ (async_setup_entry hass entry connect_ok).events ∧
    (∃ d, (async_setup_entry hass entry connect_ok).hass.discovery = some d ∧
        (entry.entry_id, get_device entry.serial entry.credential entry.device_type)
          ∈ d.registered) ∧
    (async_setup_entry hass entry connect_ok).hass.devices = hass.devices ∧
    (∀ hass2 : HassData,
        setup_entry hass2 entry.entry_id
            (get_device entry.serial entry.credential entry.device_type)
            true host true =
          setup_entry hass2 entry.entry_id
            (get_device entry.serial entry.credential entry.device_type)
            true host false) := by
  cases hd : hass.discovery <;>
    simp [async_setup_entry, h, hd, setup_entry]

/-- C6 witness: the host-less entry `sampleEntryNoHost` set up on a fresh
state registers with discovery and issues no connect attempt. -/
theorem claim_C6_hostless_registers_discovery_witness :
    sampleEntryNoHost.host = none ∧
    (async_setup_entry async_setup sampleEntryNoHost true).err = none ∧
    Event.registerDiscovery sampleEntryNoHost.entry_id
        (get_device sampleEntryNoHost.serial sampleEntryNoHost.credential
          sampleEntryNoHost.device_type).serial
      ∈ (async_setup_entry async_setup sampleEntryNoHost true).events :=
  ⟨rfl,
   (claim_C6_hostless_registers_discovery async_setup sampleEntryNoHost true
     "192.168.1.9" rfl).1,
   (claim_C6_hostless_registers_discovery async_setup sampleEntryNoHost true
     "192.168.1.9" rfl).2.2.2.1⟩

/-- A trace of platform-forward events contains no `startDiscovery`. -/
theorem count_map_forward_startDiscovery (eid : String) (l : List String) :
    (l.map (fun c => Event.forward eid c)).count Event.startDiscovery = 0 := by
  induction l with
  | nil => rfl
  | cons a l ih => simp [List.count_cons, ih]

/-- A trace of platform-forward events contains no `listenStopRegistered`. -/
theorem count_map_forward_listenStop (eid : String) (l : List String) :
    (l.map (fun c => Event.forward eid c)).count Event.listenStopRegistered = 0 := by
  induction l with
  | nil => rfl
  | cons a l ih => simp [List.count_cons, ih]

/-- Per-call effect of `async_setup_entry` on the Discovery Service: it emits
one `startDiscovery` and one `listenStopRegistered` exactly when the entry is
host-less and no singleton exists yet, and afterwards the singleton exists
exactly when it existed before or the entry is host-less. -/
theorem async_setup_entry_discovery_effect (hass : HassData) (entry : ConfigEntry)
    (ok : Bool) :
    ((async_setup_entry hass entry ok).events.count Event.startDiscovery =
      if hass.discovery.isNone && entry.host.isNone then 1 else 0) ∧
    ((async_setup_entry hass entry ok).events.count Event.listenStopRegistered =
      if hass.discovery.isNone && entry.host.isNone then 1 else 0) ∧
    ((async_setup_entry hass entry ok).hass.discovery.isSome =
      (hass.discovery.isSome || entry.host.isNone)) := by
  obtain ⟨eid, s, cr, t, host⟩ := entry
  cases host with
  | some h =>
      cases ok <;> cases hd : hass.discovery <;>
        simp [async_setup_entry, setup_entry, hd, List.count_cons,
              count_map_forward_startDiscovery, count_map_forward_listenStop]
  | none =>
      cases hd : hass.discovery <;>
        simp [async_setup_entry, hd, List.count_cons]

/-- Boolean-count arithmetic combining one setup call's trace with the
remainder of a run. -/
theorem discovery_count_arith (S B C : Bool) :
    ((if !S && B then 1 else 0) : Nat) + (if !(S || B) && C then 1 else 0) =
    if !S && (B || C) then 1 else 0 := by
  cases S <;> cases B <;> cases C <;> rfl

/-- Effect of a sequence of `async_setup_entry` calls on the Discovery
Service, generalized over the starting state. -/
theorem runSetups_discovery_effect (calls : List (ConfigEntry × Bool))
    (hass : HassData) :
    ((runSetups hass calls).2.count Event.startDiscovery =
      if hass.discovery.isNone && calls.any (fun c => c.1.host.isNone) then 1 else 0) ∧
    ((runSetups hass calls).2.count Event.listenStopRegistered =
      if hass.discovery.isNone && calls.any (fun c => c.1.host.isNone) then 1 else 0) ∧
    ((runSetups hass calls).1.discovery.isSome =
      (hass.discovery.isSome || calls.any (fun c => c.1.host.isNone))) := by
  induction calls generalizing hass with
  | nil => simp [runSetups]
  | cons c rest ih =>
      obtain ⟨h1, h2, h3⟩ := async_setup_entry_discovery_effect hass c.1 c.2
      obtain ⟨i1, i2, i3⟩ := ih (async_setup_entry hass c.1 c.2).hass
      have hnone : hass.discovery.isNone = !hass.discovery.isSome :=
        (Option.bnot_isSome hass.discovery).symm
      have hmid : (async_setup_entry hass c.1 c.2).hass.discovery.isNone =
          !(hass.discovery.isSome || c.1.host.isNone) := by
        rw [← h3, Option.bnot_isSome]
      rw [hmid] at i1 i2
      rw [hnone] at h1 h2
      refine ⟨?_, ?_, ?_⟩
      · show ((async_setup_entry hass c.1 c.2).events ++
            (runSetups (async_setup_entry hass c.1 c.2).hass rest).2).count
              Event.startDiscovery = _
        rw [List.count_append, h1, i1, hnone]
        simp only [List.any_cons]
        rw [discovery_count_arith]
      · show ((async_setup_entry hass c.1 c.2).events ++
            (runSetups (async_setup_entry hass c.1 c.2).hass rest).2).count
              Event.listenStopRegistered = _
        rw [List.count_append, h2, i2, hnone]
        simp only [List.any_cons]
        rw [discovery_count_arith]
      · show (runSetups (async_setup_entry hass c.1 c.2).hass rest).1.discovery.isSome = _
        rw [i3, h3]
        simp only [List.any_cons]
        rw [Bool.or_assoc]

/-- C8: across any sequence of setup calls from the initial state, the
Discovery Service singleton is created exactly once when some host-less
setup occurs (and never otherwise), the shutdown stop-discovery hook is
registered exactly that once, each call registers the hook exactly when it
creates the singleton (host-less setup finding no existing singleton), and
the singleton exists afterwards exactly when a host-less setup occurred. -/
theorem claim_C8_discovery_singleton_once (calls : List (ConfigEntry × Bool))
    (hass : HassData) (entry : ConfigEntry) (ok : Bool) :
    ((runSetups async_setup calls).2.count Event.startDiscovery =
      if calls.any (fun c => c.1.host.isNone) then 1 else 0) ∧
    ((runSetups async_setup calls).2.count Event.listenStopRegistered =
      if calls.any (fun c => c.1.host.isNone) then 1 else 0) ∧
    ((runSetups async_setup calls).1.discovery.isSome =
      calls.any (fun c => c.1.host.isNone)) ∧
    ((async_setup_entry hass entry ok).events.count Event.startDiscovery =
      if hass.discovery.isNone && entry.host.isNone then 1 else 0) ∧
    ((async_setup_entry hass entry ok).events.count Event.listenStopRegistered =
      (async_setup_entry hass entry ok).events.count Event.startDiscovery) := by
  obtain ⟨r1, r2, r3⟩ := runSetups_discovery_effect calls async_setup
  obtain ⟨e1, e2, _⟩ := async_setup_entry_discovery_effect hass entry ok
  refine ⟨?_, ?_, ?_, e1, ?_⟩
  · simpa [async_setup] using r1
  · simpa [async_setup] using r2
  · simpa [async_setup] using r3
  · rw [e1, e2]

end DysonLocal
